import Mathlib

/-!
Shallow embedding of `DynamicDirectivesDirective`
(src/projects/ng-dynamic-component/src/lib/dynamic-directives/dynamic-directives.directive.ts)
and the helpers it uses from src/projects/ng-dynamic-component/src/lib/util.ts.

Modelling choices:
* Behavior-type identities, injector tokens, host surfaces and binding values
  are opaque and represented by `Nat` identities; JS `===` identity comparison
  becomes decidable equality on those identities.
* The JS `Map` fields `dirRef` / `dirIo` are insertion-ordered association
  lists with `Map` semantics (`set` replaces in place, `forEach` iterates in
  insertion order).
* External collaborators (the DI `Injector`, `IoService` ports, lifecycle
  hooks) interact through an explicit event trace and an environment `Env`
  supplying the outcome of directive construction, which may fail
  (`Except`).  A thrown JS exception is the `.error` branch; state mutations
  performed before the throw are kept, as in the mutable TS original.
* Lifecycle hooks of an instance are capability flags; calling a hook is a
  trace event.  Hook bodies are modelled as non-throwing.
-/

namespace DynDir

/-- Opaque behavior-type identity (`Type<unknown>` compared by reference). -/
abbrev TypeId := Nat

/-- `DynamicDirectiveDef<T>`: `{ type, inputs?, outputs? }`.  The payloads are
opaque values. -/
structure DynamicDirectiveDef where
  type : TypeId
  inputs : Option Nat
  outputs : Option Nat
deriving DecidableEq, Repr

/-- The Angular lifecycle hooks touched by the directive. -/
inductive HookName where
  | ngOnInit
  | ngDoCheck
  | ngAfterContentInit
  | ngAfterContentChecked
  | ngAfterViewInit
  | ngAfterViewChecked
  | ngOnDestroy
deriving DecidableEq, Repr

/-- Which lifecycle hooks a constructed instance actually exposes. -/
structure Hooks where
  ngOnInit : Bool
  ngDoCheck : Bool
  ngAfterContentInit : Bool
  ngAfterContentChecked : Bool
  ngAfterViewInit : Bool
  ngAfterViewChecked : Bool
  ngOnDestroy : Bool
deriving DecidableEq, Repr

/-- A live directive instance: an identity plus its hook capabilities
(`obj[hook]` truthiness test of `callHook`). -/
structure Instance where
  id : Nat
  hooks : Hooks
deriving DecidableEq, Repr

/-- `obj[hook]` presence check of `callHook`. -/
def hasHook (obj : Instance) : HookName → Bool
  | .ngOnInit => obj.hooks.ngOnInit
  | .ngDoCheck => obj.hooks.ngDoCheck
  | .ngAfterContentInit => obj.hooks.ngAfterContentInit
  | .ngAfterContentChecked => obj.hooks.ngAfterContentChecked
  | .ngAfterViewInit => obj.hooks.ngAfterViewInit
  | .ngAfterViewChecked => obj.hooks.ngAfterViewChecked
  | .ngOnDestroy => obj.hooks.ngOnDestroy

/-- The host anchor: the surface of `componentInjector.componentRef` the
directive reads (instance identity, injector, view, location, change
detector, destroy hooks).  Each surface is an opaque identity. -/
structure ComponentRef where
  inst : Nat
  injector : Nat
  hostView : Nat
  location : Nat
  changeDetectorRef : Nat
  destroyTok : Nat
  onDestroyTok : Nat
deriving DecidableEq, Repr

/-- `DirectiveRef<T>`: the attachment record built in `initDirective`. -/
structure DirectiveRef where
  inst : Instance
  type : TypeId
  injector : Nat
  hostComponent : Nat
  hostView : Nat
  location : Nat
  changeDetectorRef : Nat
  onDestroyTok : Nat
deriving DecidableEq, Repr

/-- Observable interactions with the external collaborators: `IoService`
ports (create/update/teardown), lifecycle hook calls, and the
`ndcDynamicDirectivesCreated` emission. -/
inductive Event where
  | portCreate (port : Nat) (forType : TypeId) (instId : Nat)
  | portUpdate (port : Nat) (forType : TypeId) (inputs outputs : Option Nat)
  | portTeardown (port : Nat) (forType : TypeId)
  | hookCall (instId : Nat) (hook : HookName)
  | emitCreated (refs : List DirectiveRef)
deriving DecidableEq, Repr

/-- Environment: outcomes supplied by the DI container and the parameter-type
lookups.  `injectorGet ty deps` is `Injector.create({...deps...}).get(ty)`;
`.error` is a thrown resolution/constructor error. -/
structure Env where
  ngParamTypes : TypeId → Option (List Nat)
  reflectCtorParamTypes : TypeId → Option (List Nat)
  injectorGet : TypeId → List Nat → Except Nat Instance

/-! ### JS `Map` as an insertion-ordered association list -/

/-- `Map.get`. -/
def mapGet {α : Type} : List (TypeId × α) → TypeId → Option α
  | [], _ => none
  | (k, v) :: rest, key => if k = key then some v else mapGet rest key

/-- `Map.has`. -/
def mapHas {α : Type} (m : List (TypeId × α)) (key : TypeId) : Bool :=
  (mapGet m key).isSome

/-- `Map.set`: replaces in place when the key is present, else appends. -/
def mapSet {α : Type} : List (TypeId × α) → TypeId → α → List (TypeId × α)
  | [], key, v => [(key, v)]
  | (k, v') :: rest, key, v =>
    if k = key then (key, v) :: rest else (k, v') :: mapSet rest key v

/-- `Map.delete`: removes the entry for the key when present. -/
def mapDelete {α : Type} : List (TypeId × α) → TypeId → List (TypeId × α)
  | [], _ => []
  | (k, v) :: rest, key => if k = key then rest else (k, v) :: mapDelete rest key

/-! ### The List Differ -/

/-- Modelled from the spec: the List Differ is Angular's `IterableDiffers`
(external, not part of this repository), created with track-by
`(_, def) => def.type`.  Per the spec it "computes added and removed entries"
keyed by behavior type; `differAdded` returns the current entries left over
after matching each against a previously-seen key (multiset difference,
collection order preserved). -/
def differAdded (prevKeys : List TypeId) :
    List DynamicDirectiveDef → List DynamicDirectiveDef
  | [] => []
  | d :: rest =>
    if d.type ∈ prevKeys then differAdded (prevKeys.erase d.type) rest
    else d :: differAdded prevKeys rest

/-- Modelled from the spec: the removed entries of the List Differ — previous
entries not matched by a current key (multiset difference, previous order
preserved). -/
def differRemoved : List DynamicDirectiveDef → List TypeId → List DynamicDirectiveDef
  | [], _ => []
  | d :: rest, curKeys =>
    if d.type ∈ curKeys then differRemoved rest (curKeys.erase d.type)
    else d :: differRemoved rest curKeys

/-- The changes object handed to `processDirChanges`
(`forEachRemovedItem` / `forEachAddedItem` contents, in reported order). -/
structure DirChanges where
  removed : List DynamicDirectiveDef
  added : List DynamicDirectiveDef
deriving DecidableEq, Repr

/-- Modelled from the spec: `dirsDiffer.diff(collection)`.  A `null`
collection is treated as empty; the differ returns `none` when there is no
structural change (no adds/removes) and always re-memoizes the current
sequence as its new state. -/
def differDiff (prev : List DynamicDirectiveDef)
    (collection : Option (List DynamicDirectiveDef)) :
    Option DirChanges × List DynamicDirectiveDef :=
  let cur := collection.getD []
  let removed := differRemoved prev (cur.map (·.type))
  let added := differAdded (prev.map (·.type)) cur
  (if removed = [] ∧ added = [] then none else some ⟨removed, added⟩, cur)

/-! ### Engine state and per-tick input -/

/-- The directive's mutable fields: `lastCompInstance`, the two stores
`dirRef` / `dirIo` (a port is an opaque handle identity), the differ's memo,
and a counter supplying fresh port identities. -/
structure EngineState where
  lastCompInstance : Option Nat
  dirRef : List (TypeId × DirectiveRef)
  dirIo : List (TypeId × Nat)
  differRecords : List DynamicDirectiveDef
  nextPortId : Nat
deriving DecidableEq, Repr

/-- State at construction: nothing attached, differ memo empty. -/
def initialState : EngineState :=
  { lastCompInstance := none, dirRef := [], dirIo := [], differRecords := [],
    nextPortId := 0 }

/-- What the directive reads fresh on a tick: the two alias inputs and the
current host anchor (`componentInjector?.componentRef`). -/
structure TickInput where
  ndcDynamicDirectives : Option (List DynamicDirectiveDef)
  ngComponentOutletNdcDynamicDirectives : Option (List DynamicDirectiveDef)
  componentRef : Option ComponentRef

/-- Getter `directives`: first non-absent alias wins
(`ndcDynamicDirectives || ngComponentOutletNdcDynamicDirectives`). -/
def directives (t : TickInput) : Option (List DynamicDirectiveDef) :=
  t.ndcDynamicDirectives.orElse fun _ => t.ngComponentOutletNdcDynamicDirectives

/-- Getter `compInstance` (`componentRef && componentRef.instance`). -/
def compInstance (t : TickInput) : Option Nat :=
  t.componentRef.map (·.inst)

/-- Getter `isCompChanged`: compares against and (on change) re-assigns
`lastCompInstance`. -/
def isCompChanged (t : TickInput) (st : EngineState) : Bool × EngineState :=
  if st.lastCompInstance ≠ compInstance t then
    (true, { st with lastCompInstance := compInstance t })
  else (false, st)

/-! ### Engine operations, one `def` per source method -/

/-- `callHook(obj, hook)`: invoke the hook only when the object exposes it. -/
def callHook (tr : List Event) (obj : Instance) (hook : HookName) : List Event :=
  if hasHook obj hook then tr ++ [.hookCall obj.id hook] else tr

/-- `callInitHooks(obj)`: the six construction-time hooks in fixed order. -/
def callInitHooks (tr : List Event) (obj : Instance) : List Event :=
  let tr := callHook tr obj .ngOnInit
  let tr := callHook tr obj .ngDoCheck
  let tr := callHook tr obj .ngAfterContentInit
  let tr := callHook tr obj .ngAfterContentChecked
  let tr := callHook tr obj .ngAfterViewInit
  let tr := callHook tr obj .ngAfterViewChecked
  tr

/-- `destroyDirRef(dirRef)`: tear down the port found in `dirIo` (if any),
then call `ngOnDestroy` on the instance if it exposes one
(`isOnDestroy` from util.ts). -/
def destroyDirRef (dirIo : List (TypeId × Nat)) (tr : List Event)
    (dirRef : DirectiveRef) : List Event :=
  let tr :=
    match mapGet dirIo dirRef.type with
    | some port => tr ++ [.portTeardown port dirRef.type]
    | none => tr
  if dirRef.inst.hooks.ngOnDestroy then
    tr ++ [.hookCall dirRef.inst.id .ngOnDestroy]
  else tr

/-- `destroyAllDirectives()`: destroy every record in store order, then clear
both maps. -/
def destroyAllDirectives (st : EngineState) (tr : List Event) :
    EngineState × List Event :=
  let tr := st.dirRef.foldl (fun tr e => destroyDirRef st.dirIo tr e.2) tr
  ({ st with dirRef := [], dirIo := [] }, tr)

/-- `destroyDirective(dirDef)`: destroy the record if present, then delete
both store entries for the type. -/
def destroyDirective (st : EngineState) (tr : List Event)
    (dirDef : DynamicDirectiveDef) : EngineState × List Event :=
  let tr :=
    match mapGet st.dirRef dirDef.type with
    | some dirRef => destroyDirRef st.dirIo tr dirRef
    | none => tr
  ({ st with dirRef := mapDelete st.dirRef dirDef.type,
             dirIo := mapDelete st.dirIo dirDef.type }, tr)

/-- `updateDirective(dirDef)`: `dirIo.get(type)?.update(inputs, outputs)`. -/
def updateDirective (st : EngineState) (tr : List Event)
    (dirDef : DynamicDirectiveDef) : List Event :=
  match mapGet st.dirIo dirDef.type with
  | some port => tr ++ [.portUpdate port dirDef.type dirDef.inputs dirDef.outputs]
  | none => tr

/-- `updateDirectives()`: `directives?.forEach(updateDirective)`. -/
def updateDirectives (t : TickInput) (st : EngineState) (tr : List Event) :
    List Event :=
  match directives t with
  | some ds => ds.foldl (fun tr d => updateDirective st tr d) tr
  | none => tr

/-- `resolveDirParamTypes(dirType)`: compiler metadata, else the Reflect
fallback, else `[]` (`extractNgParamTypes ?? reflectService.getCtorParamTypes ?? []`). -/
def resolveDirParamTypes (env : Env) (dirType : TypeId) : List Nat :=
  ((env.ngParamTypes dirType).orElse
    fun _ => env.reflectCtorParamTypes dirType).getD []

/-- `createDirective(dirType)`: resolve the instance from the child injector;
a resolution or constructor throw is the `.error` branch. -/
def createDirective (env : Env) (dirType : TypeId) : Except Nat Instance :=
  env.injectorGet dirType (resolveDirParamTypes env dirType)

/-- `initDirIO(dirRef, dirDef)`: create the port for the instance, push the
declared inputs/outputs once, store the handle in `dirIo`. -/
def initDirIo (st : EngineState) (tr : List Event) (dirRef : DirectiveRef)
    (dirDef : DynamicDirectiveDef) : EngineState × List Event :=
  let port := st.nextPortId
  let tr := tr ++ [.portCreate port dirRef.type dirRef.inst.id]
  let tr := tr ++ [.portUpdate port dirRef.type dirDef.inputs dirDef.outputs]
  ({ st with nextPortId := port + 1, dirIo := mapSet st.dirIo dirRef.type port },
   tr)

/-- `initDirective(dirDef)`: skip when the type is already attached; else
construct, wire the port, run init hooks, store the record.  A construction
failure propagates with the store untouched. -/
def initDirective (env : Env) (host : ComponentRef) (st : EngineState)
    (tr : List Event) (dirDef : DynamicDirectiveDef) :
    Except Nat (Option DirectiveRef) × EngineState × List Event :=
  if mapHas st.dirRef dirDef.type then (.ok none, st, tr)
  else
    match createDirective env dirDef.type with
    | .error e => (.error e, st, tr)
    | .ok inst =>
      let directiveRef : DirectiveRef :=
        { inst := inst, type := dirDef.type, injector := host.injector,
          hostComponent := host.inst, hostView := host.hostView,
          location := host.location, changeDetectorRef := host.changeDetectorRef,
          onDestroyTok := host.onDestroyTok }
      let p := initDirIo st tr directiveRef dirDef
      let tr := callInitHooks p.2 inst
      let st := { p.1 with dirRef := mapSet p.1.dirRef directiveRef.type directiveRef }
      (.ok (some directiveRef), st, tr)

/-- The `forEachAddedItem` loop of `processDirChanges`, collecting the
successfully created refs; an exception stops the loop and propagates. -/
def processAddedItems (env : Env) (host : ComponentRef) :
    List DynamicDirectiveDef → EngineState → List Event → List DirectiveRef →
    Except Nat Unit × EngineState × List Event × List DirectiveRef
  | [], st, tr, created => (.ok (), st, tr, created)
  | d :: rest, st, tr, created =>
    match initDirective env host st tr d with
    | (.error e, st, tr) => (.error e, st, tr, created)
    | (.ok none, st, tr) => processAddedItems env host rest st tr created
    | (.ok (some r), st, tr) => processAddedItems env host rest st tr (created ++ [r])

/-- `processDirChanges(changes)`: destroy every removed item, create every
added item, and emit one notification when anything was created. -/
def processDirChanges (env : Env) (host : ComponentRef) (changes : DirChanges)
    (st : EngineState) (tr : List Event) :
    Except Nat Unit × EngineState × List Event :=
  let p := changes.removed.foldl (fun p d => destroyDirective p.1 p.2 d) (st, tr)
  match processAddedItems env host changes.added p.1 p.2 [] with
  | (.error e, st, tr, _) => (.error e, st, tr)
  | (.ok _, st, tr, createdDirs) =>
    if createdDirs = [] then (.ok (), st, tr)
    else (.ok (), st, tr ++ [.emitCreated createdDirs])

/-- `maybeDestroyDirectives()`: on host change or absence, force-clear the
differ and destroy everything; returns whether the tick must stop
(`!componentRef`). -/
def maybeDestroyDirectives (t : TickInput) (st : EngineState) (tr : List Event) :
    Bool × EngineState × List Event :=
  let p := isCompChanged t st
  if p.1 || t.componentRef.isNone then
    let st := { p.2 with differRecords := (differDiff p.2.differRecords (some [])).2 }
    let q := destroyAllDirectives st tr
    (t.componentRef.isNone, q.1, q.2)
  else
    (t.componentRef.isNone, p.2, tr)

/-- `ngDoCheck()`: one update tick. -/
def ngDoCheck (env : Env) (t : TickInput) (st : EngineState) (tr : List Event) :
    Except Nat Unit × EngineState × List Event :=
  let p := maybeDestroyDirectives t st tr
  if p.1 then (.ok (), p.2.1, p.2.2)
  else
    match t.componentRef with
    | none => (.ok (), p.2.1, p.2.2)
    | some host =>
      let st := p.2.1
      let tr := p.2.2
      let d := differDiff st.differRecords (directives t)
      let st := { st with differRecords := d.2 }
      match d.1 with
      | none => (.ok (), st, updateDirectives t st tr)
      | some changes => processDirChanges env host changes st tr

/-- `ngOnDestroy()`: engine shutdown. -/
def ngOnDestroy (st : EngineState) (tr : List Event) : EngineState × List Event :=
  destroyAllDirectives st tr

/-- A sequence of ticks; an exception propagates to the external caller and
stops the run. -/
def runTicks (env : Env) :
    List TickInput → EngineState → List Event →
    Except Nat Unit × EngineState × List Event
  | [], st, tr => (.ok (), st, tr)
  | t :: rest, st, tr =>
    match ngDoCheck env t st tr with
    | (.error e, st, tr) => (.error e, st, tr)
    | (.ok _, st, tr) => runTicks env rest st tr

/-! ### Verification vocabulary -/

/-- Concatenation of per-item event blocks (used to state what a `forEach`
loop appends to the trace). -/
def concatMap {α : Type} (f : α → List Event) : List α → List Event
  | [] => []
  | x :: xs => f x ++ concatMap f xs

/-- The attachment record `initDirective` builds for type `ty` and fresh
instance `inst` under host anchor `host` (the record literal of the source). -/
def mkRef (host : ComponentRef) (ty : TypeId) (inst : Instance) : DirectiveRef :=
  { inst := inst, type := ty, injector := host.injector,
    hostComponent := host.inst, hostView := host.hostView,
    location := host.location, changeDetectorRef := host.changeDetectorRef,
    onDestroyTok := host.onDestroyTok }

/-- The fixed construction-time hook order of `callInitHooks`. -/
def initHookOrder : List HookName :=
  [.ngOnInit, .ngDoCheck, .ngAfterContentInit, .ngAfterContentChecked,
   .ngAfterViewInit, .ngAfterViewChecked]

/-- Is the event an `update` call on the Binding Port attached under `ty`? -/
def isUpdateFor (ty : TypeId) : Event → Bool
  | .portUpdate _ forType _ _ => forType == ty
  | _ => false

/-- Is the event a Binding Port `update` call at all? -/
def isPortUpdate : Event → Bool
  | .portUpdate _ _ _ _ => true
  | _ => false

/-- A concrete environment for witness evaluations: no static or reflected
constructor-parameter metadata; construction fails (throws error 7) for
type 99 and succeeds for every other type with an instance exposing every
lifecycle hook. -/
def envW : Env :=
  { ngParamTypes := fun _ => none,
    reflectCtorParamTypes := fun _ => none,
    injectorGet := fun ty _ =>
      if ty = 99 then .error 7
      else .ok ⟨100 + ty, ⟨true, true, true, true, true, true, true⟩⟩ }

/-- A concrete host anchor for witness evaluations. -/
def hostW : ComponentRef := ⟨1, 10, 11, 12, 13, 14, 15⟩

/-- A second, distinct concrete host anchor. -/
def hostW2 : ComponentRef := ⟨2, 20, 21, 22, 23, 24, 25⟩

/-- A declaration of behavior type 5 used by concrete evaluations. -/
def defDup : DynamicDirectiveDef := ⟨5, some 50, none⟩

/-- The engine state reached by one tick declaring `[defDup, defDup]` from
the initial state under the witness host: one record and port for type 5,
with the differ memo holding the duplicated sequence. -/
def stDup : EngineState :=
  { lastCompInstance := some hostW.inst,
    dirRef := [(5, mkRef hostW 5 ⟨105, ⟨true, true, true, true, true, true, true⟩⟩)],
    dirIo := [(5, 0)], differRecords := [defDup, defDup], nextPortId := 1 }

/-- The Record Store invariant: the two stores are keyed by the same live
type identities, and each identity holds exactly one record. -/
def storeInv (st : EngineState) : Prop :=
  st.dirRef.map Prod.fst = st.dirIo.map Prod.fst ∧
  (st.dirRef.map Prod.fst).Nodup

/-! ### Basic lemmas about the JS `Map` model -/

@[simp]
theorem mapGet_nil {α : Type} (key : TypeId) :
    mapGet ([] : List (TypeId × α)) key = none := rfl

@[simp]
theorem mapGet_cons {α : Type} (k : TypeId) (v : α) (m : List (TypeId × α))
    (key : TypeId) :
    mapGet ((k, v) :: m) key = if k = key then some v else mapGet m key := rfl

@[simp]
theorem mapDelete_nil {α : Type} (key : TypeId) :
    mapDelete ([] : List (TypeId × α)) key = [] := rfl

@[simp]
theorem mapDelete_cons {α : Type} (k : TypeId) (v : α) (m : List (TypeId × α))
    (key : TypeId) :
    mapDelete ((k, v) :: m) key
      = if k = key then m else (k, v) :: mapDelete m key := rfl

@[simp]
theorem mapSet_nil {α : Type} (key : TypeId) (v : α) :
    mapSet ([] : List (TypeId × α)) key v = [(key, v)] := rfl

@[simp]
theorem mapSet_cons {α : Type} (k : TypeId) (v' : α) (m : List (TypeId × α))
    (key : TypeId) (v : α) :
    mapSet ((k, v') :: m) key v
      = if k = key then (key, v) :: m else (k, v') :: mapSet m key v := rfl

theorem mapHas_iff_mem {α : Type} (m : List (TypeId × α)) (key : TypeId) :
    mapHas m key = true ↔ key ∈ m.map Prod.fst := by
  induction m with
  | nil => simp [mapHas]
  | cons e rest ih =>
    obtain ⟨k, v⟩ := e
    by_cases hk : k = key <;> simp [mapHas, hk, ← ih, Option.isSome] <;>
      simp [eq_comm (a := key) (b := k), hk]

theorem mapGet_none_iff_not_mem {α : Type} (m : List (TypeId × α)) (key : TypeId) :
    mapGet m key = none ↔ key ∉ m.map Prod.fst := by
  have h := mapHas_iff_mem m key
  simp only [mapHas, Option.isSome] at h
  cases hm : mapGet m key <;> simp [hm] at h ⊢ <;> simp [h]

theorem mapDelete_keys {α : Type} (m : List (TypeId × α)) (key : TypeId) :
    (mapDelete m key).map Prod.fst = (m.map Prod.fst).erase key := by
  induction m with
  | nil => simp
  | cons e rest ih =>
    obtain ⟨k, v⟩ := e
    by_cases hk : k = key <;>
      simp [hk, ih, List.erase_cons]

theorem mapDelete_not_mem {α : Type} (m : List (TypeId × α)) (key : TypeId)
    (h : key ∉ m.map Prod.fst) : mapDelete m key = m := by
  induction m with
  | nil => rfl
  | cons e rest ih =>
    obtain ⟨k, v⟩ := e
    simp only [List.map_cons, List.mem_cons] at h
    push_neg at h
    simp [Ne.symm h.1, ih h.2]

theorem mapSet_keys_of_not_mem {α : Type} (m : List (TypeId × α)) (key : TypeId)
    (v : α) (h : key ∉ m.map Prod.fst) :
    (mapSet m key v).map Prod.fst = m.map Prod.fst ++ [key] := by
  induction m with
  | nil => simp
  | cons e rest ih =>
    obtain ⟨k, v'⟩ := e
    simp only [List.map_cons, List.mem_cons] at h
    push_neg at h
    simp [Ne.symm h.1, ih h.2]

/-! ### Trace-locality lemmas: every operation appends a block of events -/

theorem callHook_append (tr : List Event) (obj : Instance) (hk : HookName) :
    callHook tr obj hk = tr ++ callHook [] obj hk := by
  cases h : hasHook obj hk <;> simp [callHook, h]

theorem callInitHooks_eq (tr : List Event) (obj : Instance) :
    callInitHooks tr obj
      = tr ++ (initHookOrder.filter (hasHook obj)).map (Event.hookCall obj.id) := by
  obtain ⟨i, o, d, aci, acc, avi, avc, od⟩ := obj
  cases o <;> cases d <;> cases aci <;> cases acc <;> cases avi <;> cases avc <;>
    simp [callInitHooks, callHook, hasHook, initHookOrder]

theorem callInitHooks_append (tr : List Event) (obj : Instance) :
    callInitHooks tr obj = tr ++ callInitHooks [] obj := by
  rw [callInitHooks_eq tr, callInitHooks_eq []]
  simp

theorem destroyDirRef_append (io : List (TypeId × Nat)) (tr : List Event)
    (r : DirectiveRef) :
    destroyDirRef io tr r = tr ++ destroyDirRef io [] r := by
  cases hm : mapGet io r.type <;> cases h : r.inst.hooks.ngOnDestroy <;>
    simp [destroyDirRef, hm, h]

theorem updateDirective_append (st : EngineState) (tr : List Event)
    (d : DynamicDirectiveDef) :
    updateDirective st tr d = tr ++ updateDirective st [] d := by
  cases hm : mapGet st.dirIo d.type <;> simp [updateDirective, hm]

@[simp]
theorem concatMap_nil {α : Type} (f : α → List Event) : concatMap f [] = [] := rfl

@[simp]
theorem concatMap_cons {α : Type} (f : α → List Event) (x : α) (xs : List α) :
    concatMap f (x :: xs) = f x ++ concatMap f xs := rfl

theorem foldl_updateDirective (st : EngineState) (ds : List DynamicDirectiveDef)
    (tr : List Event) :
    ds.foldl (fun tr d => updateDirective st tr d) tr
      = tr ++ concatMap (fun d => updateDirective st [] d) ds := by
  induction ds generalizing tr with
  | nil => simp
  | cons d rest ih =>
    rw [List.foldl_cons, ih, updateDirective_append]
    simp

theorem updateDirectives_eq (t : TickInput) (st : EngineState) (tr : List Event) :
    updateDirectives t st tr
      = tr ++ concatMap (fun d => updateDirective st [] d) ((directives t).getD []) := by
  cases hd : directives t <;>
    simp [updateDirectives, hd, foldl_updateDirective]

theorem foldl_destroyDirRef (io : List (TypeId × Nat))
    (l : List (TypeId × DirectiveRef)) (tr : List Event) :
    l.foldl (fun tr e => destroyDirRef io tr e.2) tr
      = tr ++ concatMap (fun e => destroyDirRef io [] e.2) l := by
  induction l generalizing tr with
  | nil => simp
  | cons e rest ih =>
    rw [List.foldl_cons, ih, destroyDirRef_append]
    simp

theorem destroyAllDirectives_eq (st : EngineState) (tr : List Event) :
    destroyAllDirectives st tr
      = ({ st with dirRef := [], dirIo := [] },
         tr ++ concatMap (fun e => destroyDirRef st.dirIo [] e.2) st.dirRef) := by
  simp [destroyAllDirectives, foldl_destroyDirRef]

/-! ### Preservation of the Record Store invariant -/

theorem storeInv_set_differ (st : EngineState) (x : List DynamicDirectiveDef) :
    storeInv { st with differRecords := x } ↔ storeInv st := Iff.rfl

theorem storeInv_destroyDirective (st : EngineState) (tr : List Event)
    (d : DynamicDirectiveDef) (h : storeInv st) :
    storeInv (destroyDirective st tr d).1 := by
  obtain ⟨hkeys, hnodup⟩ := h
  constructor
  · simp only [destroyDirective, mapDelete_keys, hkeys]
  · simp only [destroyDirective, mapDelete_keys]
    exact hnodup.erase _

theorem storeInv_initDirective (env : Env) (host : ComponentRef)
    (st : EngineState) (tr : List Event) (d : DynamicDirectiveDef)
    (h : storeInv st) : storeInv (initDirective env host st tr d).2.1 := by
  obtain ⟨hkeys, hnodup⟩ := h
  rw [initDirective]
  by_cases hhas : mapHas st.dirRef d.type
  · simpa [hhas] using ⟨hkeys, hnodup⟩
  · have hmem : d.type ∉ st.dirRef.map Prod.fst := by
      rw [← mapHas_iff_mem]
      simpa using hhas
    have hmemIo : d.type ∉ st.dirIo.map Prod.fst := hkeys ▸ hmem
    cases hc : createDirective env d.type with
    | error e => simpa [hhas, hc] using ⟨hkeys, hnodup⟩
    | ok inst =>
      simp only [hhas, hc, Bool.false_eq_true, if_false, initDirIo]
      refine ⟨?_, ?_⟩
      · simp only [mapSet_keys_of_not_mem _ _ _ hmem,
          mapSet_keys_of_not_mem _ _ _ hmemIo, hkeys]
      · simp only [mapSet_keys_of_not_mem _ _ _ hmem]
        simp [List.nodup_append, hnodup, hmem]

theorem storeInv_processAddedItems (env : Env) (host : ComponentRef) :
    ∀ (items : List DynamicDirectiveDef) (st : EngineState) (tr : List Event)
      (created : List DirectiveRef), storeInv st →
      storeInv (processAddedItems env host items st tr created).2.1
  | [], _, _, _, h => h
  | d :: rest, st, tr, created, h => by
    have h2 := storeInv_initDirective env host st tr d h
    rw [processAddedItems]
    rcases hi : initDirective env host st tr d with ⟨v, st2, tr2⟩
    rw [hi] at h2
    simp only at h2
    cases v with
    | error e => simpa using h2
    | ok r =>
      cases r with
      | none => exact storeInv_processAddedItems env host rest st2 tr2 created h2
      | some rr =>
        exact storeInv_processAddedItems env host rest st2 tr2 (created ++ [rr]) h2

theorem storeInv_foldl_destroy :
    ∀ (ds : List DynamicDirectiveDef) (p : EngineState × List Event),
      storeInv p.1 →
      storeInv (ds.foldl (fun p d => destroyDirective p.1 p.2 d) p).1
  | [], _, h => h
  | d :: rest, p, h => by
    rw [List.foldl_cons]
    exact storeInv_foldl_destroy rest _ (storeInv_destroyDirective p.1 p.2 d h)

theorem storeInv_processDirChanges (env : Env) (host : ComponentRef)
    (changes : DirChanges) (st : EngineState) (tr : List Event)
    (h : storeInv st) : storeInv (processDirChanges env host changes st tr).2.1 := by
  rw [processDirChanges]
  have h1 := storeInv_foldl_destroy changes.removed (st, tr) h
  have h2 := storeInv_processAddedItems env host changes.added
    (changes.removed.foldl (fun p d => destroyDirective p.1 p.2 d) (st, tr)).1
    (changes.removed.foldl (fun p d => destroyDirective p.1 p.2 d) (st, tr)).2 [] h1
  rcases hi : processAddedItems env host changes.added
      (changes.removed.foldl (fun p d => destroyDirective p.1 p.2 d) (st, tr)).1
      (changes.removed.foldl (fun p d => destroyDirective p.1 p.2 d) (st, tr)).2 []
    with ⟨v, st2, tr2, created⟩
  rw [hi] at h2
  simp only at h2
  cases v with
  | error e => simpa using h2
  | ok u => by_cases hc : created = [] <;> simpa [hc] using h2

theorem storeInv_maybeDestroyDirectives (t : TickInput) (st : EngineState)
    (tr : List Event) (h : storeInv st) :
    storeInv (maybeDestroyDirectives t st tr).2.1 := by
  unfold maybeDestroyDirectives isCompChanged
  by_cases hch : st.lastCompInstance ≠ compInstance t <;>
    by_cases hno : t.componentRef.isNone = true
  · simp [hch, hno, destroyAllDirectives_eq, storeInv]
  · simp [hch, hno, destroyAllDirectives_eq, storeInv]
  · simp [hch, hno, destroyAllDirectives_eq, storeInv]
  · simpa [hch, hno] using h

theorem storeInv_ngDoCheck (env : Env) (t : TickInput) (st : EngineState)
    (tr : List Event) (h : storeInv st) : storeInv (ngDoCheck env t st tr).2.1 := by
  rw [ngDoCheck]
  have hm := storeInv_maybeDestroyDirectives t st tr h
  by_cases h1 : (maybeDestroyDirectives t st tr).1 <;> simp only [h1, if_true,
    Bool.false_eq_true, if_false]
  · exact hm
  · cases hcr : t.componentRef with
    | none => exact hm
    | some host =>
      simp only
      rcases hd : (differDiff (maybeDestroyDirectives t st tr).2.1.differRecords
          (directives t)).1 with _ | changes
      · simp only [hd]
        exact hm
      · simp only [hd]
        exact storeInv_processDirChanges env host changes _ _ hm

theorem storeInv_runTicks (env : Env) :
    ∀ (ts : List TickInput) (st : EngineState) (tr : List Event),
      storeInv st → storeInv (runTicks env ts st tr).2.1
  | [], _, _, h => h
  | t :: rest, st, tr, h => by
    rw [runTicks]
    have h2 := storeInv_ngDoCheck env t st tr h
    rcases hi : ngDoCheck env t st tr with ⟨v, st2, tr2⟩
    rw [hi] at h2
    simp only at h2
    cases v with
    | error e => simpa using h2
    | ok u => exact storeInv_runTicks env rest st2 tr2 h2

/-! ### Stable-host reduction -/

theorem maybeDestroyDirectives_stable (t : TickInput) (st : EngineState)
    (tr : List Event) (host : ComponentRef) (hhost : t.componentRef = some host)
    (hstable : st.lastCompInstance = some host.inst) :
    maybeDestroyDirectives t st tr = (false, st, tr) := by
  unfold maybeDestroyDirectives isCompChanged
  simp [compInstance, hhost, hstable]

/-! ### Claim theorems -/

/-- C2: the Record Store invariant — both stores are keyed by exactly the
same live type identities and hold exactly one entry per identity (key lists
equal and duplicate-free, so no second attachment can exist for a type
already present) — holds initially, is preserved by every update tick
(`ngDoCheck`, including failing ones) and by shutdown (`ngOnDestroy`), and
therefore holds after every run of ticks from the initial state. -/
theorem c2_record_store_invariant (env : Env) (t : TickInput) (st : EngineState)
    (tr : List Event) (hinv : storeInv st) :
    storeInv (ngDoCheck env t st tr).2.1
    ∧ storeInv (ngOnDestroy st tr).1
    ∧ storeInv initialState
    ∧ ∀ ts : List TickInput, storeInv (runTicks env ts initialState []).2.1 := by
  refine ⟨storeInv_ngDoCheck env t st tr hinv, ?_, ⟨rfl, List.nodup_nil⟩, ?_⟩
  · rw [ngOnDestroy, destroyAllDirectives_eq]
    exact ⟨rfl, List.nodup_nil⟩
  · intro ts
    exact storeInv_runTicks env ts initialState [] ⟨rfl, List.nodup_nil⟩

/-- C2 witness: the invariant propagation applied at the empty initial state
and a host-less tick. -/
theorem c2_record_store_invariant_witness :
    storeInv initialState ∧ storeInv (ngOnDestroy initialState []).1 :=
  ⟨⟨rfl, List.nodup_nil⟩,
   (c2_record_store_invariant envW ⟨none, none, none⟩ initialState []
     ⟨rfl, List.nodup_nil⟩).2.1⟩

/-- C7: for every newly created instance, `callInitHooks` invokes the
lifecycle hooks in the fixed order init → check → after-content-init →
after-content-check → after-view-init → after-view-check, calling exactly
the hooks the instance exposes; an absent hook is skipped (no event, no
error) while the remaining hooks still run, in order (the emitted calls form
the `filter` of the fixed order, a sublist of the full ordered sequence). -/
theorem c7_init_hook_order (tr : List Event) (obj : Instance) :
    callInitHooks tr obj
      = tr ++ (initHookOrder.filter (hasHook obj)).map (Event.hookCall obj.id)
    ∧ ((initHookOrder.filter (hasHook obj)).map (Event.hookCall obj.id)).Sublist
        (initHookOrder.map (Event.hookCall obj.id)) :=
  ⟨callInitHooks_eq tr obj, (List.filter_sublist _).map _⟩

/-- C8: destroying an attachment record tears the Binding Port down strictly
before the instance's own `ngOnDestroy` (invoked only when exposed); an
engine shutdown (`ngOnDestroy`) destroys every stored record in store order
and leaves both store mappings empty, and a host-change or host-absence tick
(`maybeDestroyDirectives` with a changed or absent anchor) performs the same
full teardown and additionally resets the differ memo. -/
theorem c8_teardown_protocol (st : EngineState) (tr : List Event) (t : TickInput)
    (htrigger : st.lastCompInstance ≠ compInstance t ∨ t.componentRef = none) :
    ngOnDestroy st tr
      = ({ st with dirRef := [], dirIo := [] },
         tr ++ concatMap (fun e => destroyDirRef st.dirIo [] e.2) st.dirRef)
    ∧ (∀ io : List (TypeId × Nat), ∀ tr0 : List Event, ∀ r : DirectiveRef,
        destroyDirRef io tr0 r
          = tr0 ++ (match mapGet io r.type with
                    | some p => [Event.portTeardown p r.type]
                    | none => [])
                ++ (if r.inst.hooks.ngOnDestroy then
                      [Event.hookCall r.inst.id .ngOnDestroy]
                    else []))
    ∧ (maybeDestroyDirectives t st tr).2.1.dirRef = []
    ∧ (maybeDestroyDirectives t st tr).2.1.dirIo = []
    ∧ (maybeDestroyDirectives t st tr).2.1.differRecords = []
    ∧ (maybeDestroyDirectives t st tr).2.2
        = tr ++ concatMap (fun e => destroyDirRef st.dirIo [] e.2) st.dirRef := by
  refine ⟨?_, ?_, ?_⟩
  · rw [ngOnDestroy, destroyAllDirectives_eq]
  · intro io tr0 r
    cases hm : mapGet io r.type <;> cases h : r.inst.hooks.ngOnDestroy <;>
      simp [destroyDirRef, hm, h]
  · unfold maybeDestroyDirectives isCompChanged
    by_cases hch : st.lastCompInstance ≠ compInstance t
    · simp [hch, destroyAllDirectives_eq, differDiff]
    · rcases htrigger with h1 | h2
      · exact absurd h1 hch
      · simp [hch, h2, destroyAllDirectives_eq, differDiff]

/-- C8 witness at a concrete teardown trigger: one attached record, host
anchor absent this tick. -/
theorem c8_teardown_protocol_witness :
    (({ lastCompInstance := some 1,
        dirRef := [(5, mkRef ⟨1, 10, 11, 12, 13, 14, 15⟩ 5 ⟨100, ⟨true, true, true, true, true, true, true⟩⟩)],
        dirIo := [(5, 0)], differRecords := [⟨5, none, none⟩],
        nextPortId := 1 } : EngineState).lastCompInstance
        ≠ compInstance ⟨some [⟨5, none, none⟩], none, none⟩
      ∨ (⟨some [⟨5, none, none⟩], none, none⟩ : TickInput).componentRef = none) ∧
    (maybeDestroyDirectives ⟨some [⟨5, none, none⟩], none, none⟩
      { lastCompInstance := some 1,
        dirRef := [(5, mkRef ⟨1, 10, 11, 12, 13, 14, 15⟩ 5 ⟨100, ⟨true, true, true, true, true, true, true⟩⟩)],
        dirIo := [(5, 0)], differRecords := [⟨5, none, none⟩],
        nextPortId := 1 } []).2.1.dirRef = [] :=
  ⟨Or.inr rfl,
   (c8_teardown_protocol
     { lastCompInstance := some 1,
       dirRef := [(5, mkRef ⟨1, 10, 11, 12, 13, 14, 15⟩ 5 ⟨100, ⟨true, true, true, true, true, true, true⟩⟩)],
       dirIo := [(5, 0)], differRecords := [⟨5, none, none⟩],
       nextPortId := 1 } []
     ⟨some [⟨5, none, none⟩], none, none⟩ (Or.inr rfl)).2.2.1⟩

/-- C10: a type with no live attachment is a safe no-op everywhere: removing
it destroys nothing and leaves the engine state unchanged (deleting its
absent keys from both maps changes neither), value-refreshing it calls no
Binding Port, and destroying a record whose port handle is missing from
`dirIo` skips the port teardown (only the instance's own `ngOnDestroy` runs,
and only when exposed) without failing. -/
theorem c10_absent_type_noop (st : EngineState) (tr : List Event)
    (d : DynamicDirectiveDef) (r : DirectiveRef)
    (hd : mapGet st.dirRef d.type = none) (hio : mapGet st.dirIo d.type = none)
    (hr : mapGet st.dirIo r.type = none) :
    destroyDirective st tr d = (st, tr)
    ∧ updateDirective st tr d = tr
    ∧ destroyDirRef st.dirIo tr r
        = (if r.inst.hooks.ngOnDestroy then
            tr ++ [Event.hookCall r.inst.id .ngOnDestroy]
          else tr) := by
  refine ⟨?_, ?_, ?_⟩
  · rw [destroyDirective]
    rw [hd]
    rw [mapDelete_not_mem st.dirRef d.type ((mapGet_none_iff_not_mem _ _).1 hd),
        mapDelete_not_mem st.dirIo d.type ((mapGet_none_iff_not_mem _ _).1 hio)]
  · simp [updateDirective, hio]
  · simp [destroyDirRef, hr]

/-- C10 witness: empty stores, a record for type 5 with an exposed
`ngOnDestroy`. -/
theorem c10_absent_type_noop_witness :
    mapGet (initialState.dirRef) 5 = none ∧
    updateDirective initialState [] ⟨5, some 1, none⟩ = [] :=
  ⟨rfl,
   (c10_absent_type_noop initialState [] ⟨5, some 1, none⟩
     (mkRef ⟨1, 10, 11, 12, 13, 14, 15⟩ 5 ⟨100, ⟨false, false, false, false, false, false, false⟩⟩)
     rfl rfl rfl).2.1⟩

/-- C4: when the declared list names the same behavior type twice in one
tick (here from a fresh, empty store under a stable host), exactly one
attachment record is created and stored for that type, the port is created
and updated once (from the first declaration), and the creation notification
emitted that tick carries exactly one entry for it; the duplicate is skipped
silently (the tick returns `ok`, not an error). -/
theorem c4_duplicate_idempotent (env : Env) (h : ComponentRef) (ty : TypeId)
    (d1 d2 : DynamicDirectiveDef) (i : Instance) (np : Nat) (tr : List Event)
    (hd1 : d1.type = ty) (hd2 : d2.type = ty)
    (hok : env.injectorGet ty (resolveDirParamTypes env ty) = .ok i) :
    ngDoCheck env ⟨some [d1, d2], none, some h⟩
      { lastCompInstance := some h.inst, dirRef := [], dirIo := [],
        differRecords := [], nextPortId := np } tr
      = (.ok (),
         { lastCompInstance := some h.inst, dirRef := [(ty, mkRef h ty i)],
           dirIo := [(ty, np)], differRecords := [d1, d2], nextPortId := np + 1 },
         tr ++ (Event.portCreate np ty i.id
                :: Event.portUpdate np ty d1.inputs d1.outputs
                :: callInitHooks [] i)
            ++ [Event.emitCreated [mkRef h ty i]]) := by
  obtain ⟨t1, in1, out1⟩ := d1
  obtain ⟨t2, in2, out2⟩ := d2
  simp only at hd1 hd2
  subst hd1
  subst hd2
  rw [ngDoCheck, maybeDestroyDirectives_stable _ _ _ h rfl rfl]
  simp [directives, Option.orElse, differDiff, differAdded, differRemoved,
    processDirChanges, processAddedItems, initDirective, createDirective, hok,
    initDirIo, mapHas, mkRef, callInitHooks_eq]

/-- C4 witness: type 5 declared twice with differing payloads, under the
concrete witness host and environment. -/
theorem c4_duplicate_idempotent_witness :
    (⟨5, some 50, none⟩ : DynamicDirectiveDef).type = 5 ∧
    ngDoCheck envW ⟨some [⟨5, some 50, none⟩, ⟨5, some 55, none⟩], none, some hostW⟩
      { lastCompInstance := some hostW.inst, dirRef := [], dirIo := [],
        differRecords := [], nextPortId := 0 } []
      = (.ok (),
         { lastCompInstance := some hostW.inst,
           dirRef := [(5, mkRef hostW 5 ⟨105, ⟨true, true, true, true, true, true, true⟩⟩)],
           dirIo := [(5, 0)],
           differRecords := [⟨5, some 50, none⟩, ⟨5, some 55, none⟩],
           nextPortId := 1 },
         [] ++ (Event.portCreate 0 5 105
                :: Event.portUpdate 0 5 (some 50) none
                :: callInitHooks [] ⟨105, ⟨true, true, true, true, true, true, true⟩⟩)
            ++ [Event.emitCreated [mkRef hostW 5 ⟨105, ⟨true, true, true, true, true, true, true⟩⟩]]) :=
  ⟨rfl,
   c4_duplicate_idempotent envW hostW 5 ⟨5, some 50, none⟩ ⟨5, some 55, none⟩
     ⟨105, ⟨true, true, true, true, true, true, true⟩⟩ 0 [] rfl rfl rfl⟩

/-- C1: on a stable-host tick taking the declared list from `[A, B]` to
`[B, C]`, exactly A's record is destroyed (its port teardown and, when
exposed, its instance teardown are the only destruction events), exactly one
new record is created (for C, with one new port), and B's attachment record,
instance and port are left verbatim in the stores — no destroy/recreate for
B. -/
theorem c1_diff_minimality (env : Env) (h : ComponentRef) (a b c : TypeId)
    (ra rb : DirectiveRef) (pa pb np : Nat)
    (dA dB dB2 dC : DynamicDirectiveDef) (ic : Instance) (tr : List Event)
    (hab : a ≠ b) (hac : a ≠ c) (hbc : b ≠ c)
    (hdA : dA.type = a) (hdB : dB.type = b) (hdB2 : dB2.type = b)
    (hdC : dC.type = c) (hra : ra.type = a)
    (hok : env.injectorGet c (resolveDirParamTypes env c) = .ok ic) :
    ngDoCheck env ⟨some [dB2, dC], none, some h⟩
      { lastCompInstance := some h.inst, dirRef := [(a, ra), (b, rb)],
        dirIo := [(a, pa), (b, pb)], differRecords := [dA, dB],
        nextPortId := np } tr
      = (.ok (),
         { lastCompInstance := some h.inst,
           dirRef := [(b, rb), (c, mkRef h c ic)],
           dirIo := [(b, pb), (c, np)],
           differRecords := [dB2, dC], nextPortId := np + 1 },
         tr ++ destroyDirRef [(a, pa), (b, pb)] [] ra
            ++ (Event.portCreate np c ic.id
                :: Event.portUpdate np c dC.inputs dC.outputs
                :: callInitHooks [] ic)
            ++ [Event.emitCreated [mkRef h c ic]]) := by
  obtain ⟨tA, inA, outA⟩ := dA
  obtain ⟨tB, inB, outB⟩ := dB
  obtain ⟨tB2, inB2, outB2⟩ := dB2
  obtain ⟨tC, inC, outC⟩ := dC
  obtain ⟨rai, rat, raj, rahc, rahv, ral, racd, rad⟩ := ra
  simp only at hdA hdB hdB2 hdC hra
  subst hdA; subst hdB; subst hdB2; subst hdC; subst hra
  rw [ngDoCheck, maybeDestroyDirectives_stable _ _ _ h rfl rfl]
  cases hflag : rai.hooks.ngOnDestroy <;>
    simp [directives, Option.orElse, differDiff, differAdded, differRemoved,
      hab, hac, hbc, Ne.symm hab, Ne.symm hac, Ne.symm hbc,
      processDirChanges, processAddedItems, destroyDirective, destroyDirRef,
      hflag, initDirective, createDirective, hok, initDirIo, mapHas, mkRef,
      callInitHooks_eq]

/-- C1 witness: previous list `[5, 6]`, current `[6, 7]`, concrete records
and ports, under the witness host and environment. -/
theorem c1_diff_minimality_witness :
    (5 : TypeId) ≠ 6 ∧
    ngDoCheck envW ⟨some [⟨6, some 60, none⟩, ⟨7, some 70, none⟩], none, some hostW⟩
      { lastCompInstance := some hostW.inst,
        dirRef := [(5, mkRef hostW 5 ⟨105, ⟨true, true, true, true, true, true, true⟩⟩),
                   (6, mkRef hostW 6 ⟨106, ⟨true, true, true, true, true, true, true⟩⟩)],
        dirIo := [(5, 0), (6, 1)],
        differRecords := [⟨5, some 50, none⟩, ⟨6, some 60, none⟩],
        nextPortId := 2 } []
      = (.ok (),
         { lastCompInstance := some hostW.inst,
           dirRef := [(6, mkRef hostW 6 ⟨106, ⟨true, true, true, true, true, true, true⟩⟩),
                      (7, mkRef hostW 7 ⟨107, ⟨true, true, true, true, true, true, true⟩⟩)],
           dirIo := [(6, 1), (7, 2)],
           differRecords := [⟨6, some 60, none⟩, ⟨7, some 70, none⟩],
           nextPortId := 3 },
         [] ++ destroyDirRef [(5, 0), (6, 1)] []
                 (mkRef hostW 5 ⟨105, ⟨true, true, true, true, true, true, true⟩⟩)
            ++ (Event.portCreate 2 7 107
                :: Event.portUpdate 2 7 (some 70) none
                :: callInitHooks [] ⟨107, ⟨true, true, true, true, true, true, true⟩⟩)
            ++ [Event.emitCreated [mkRef hostW 7 ⟨107, ⟨true, true, true, true, true, true, true⟩⟩]]) :=
  ⟨by decide,
   c1_diff_minimality envW hostW 5 6 7
     (mkRef hostW 5 ⟨105, ⟨true, true, true, true, true, true, true⟩⟩)
     (mkRef hostW 6 ⟨106, ⟨true, true, true, true, true, true, true⟩⟩)
     0 1 2 ⟨5, some 50, none⟩ ⟨6, some 60, none⟩ ⟨6, some 60, none⟩ ⟨7, some 70, none⟩
     ⟨107, ⟨true, true, true, true, true, true, true⟩⟩ []
     (by decide) (by decide) (by decide) rfl rfl rfl rfl rfl rfl⟩

/-- C3: when a behavior's construction fails (the injector resolution or
constructor throws), the error propagates uncaught out of the tick, no
partial record or port is stored for that behavior and no lifecycle hook of
it is invoked (the trace carries only the earlier behavior's events), while
the behavior successfully created earlier in the same tick stays attached in
both stores; in general a failing `initDirective` returns with state and
trace exactly unchanged. -/
theorem c3_construction_failure (env : Env) (h : ComponentRef) (a bb : TypeId)
    (da db : DynamicDirectiveDef) (ia : Instance) (e : Nat) (np : Nat)
    (tr : List Event) (hne : a ≠ bb) (hda : da.type = a) (hdb : db.type = bb)
    (hoka : env.injectorGet a (resolveDirParamTypes env a) = .ok ia)
    (herr : env.injectorGet bb (resolveDirParamTypes env bb) = .error e) :
    ngDoCheck env ⟨some [da, db], none, some h⟩
      { lastCompInstance := some h.inst, dirRef := [], dirIo := [],
        differRecords := [], nextPortId := np } tr
      = (.error e,
         { lastCompInstance := some h.inst, dirRef := [(a, mkRef h a ia)],
           dirIo := [(a, np)], differRecords := [da, db], nextPortId := np + 1 },
         tr ++ (Event.portCreate np a ia.id
                :: Event.portUpdate np a da.inputs da.outputs
                :: callInitHooks [] ia))
    ∧ ∀ (st2 : EngineState) (tr2 : List Event) (d : DynamicDirectiveDef)
        (e2 : Nat), mapHas st2.dirRef d.type = false →
        createDirective env d.type = .error e2 →
        initDirective env h st2 tr2 d = (.error e2, st2, tr2) := by
  constructor
  · obtain ⟨tA, inA, outA⟩ := da
    obtain ⟨tB, inB, outB⟩ := db
    simp only at hda hdb
    subst hda; subst hdb
    rw [ngDoCheck, maybeDestroyDirectives_stable _ _ _ h rfl rfl]
    simp [directives, Option.orElse, differDiff, differAdded, differRemoved,
      hne, Ne.symm hne, processDirChanges, processAddedItems, initDirective,
      createDirective, hoka, herr, initDirIo, mapHas, mkRef, callInitHooks_eq]
  · intro st2 tr2 d e2 hhas hc
    simp [initDirective, hhas, hc]

/-- C3 witness: type 5 constructs, type 99 throws error 7 in the witness
environment. -/
theorem c3_construction_failure_witness :
    (5 : TypeId) ≠ 99 ∧
    envW.injectorGet 99 (resolveDirParamTypes envW 99) = .error 7 ∧
    ngDoCheck envW ⟨some [⟨5, some 50, none⟩, ⟨99, none, none⟩], none, some hostW⟩
      { lastCompInstance := some hostW.inst, dirRef := [], dirIo := [],
        differRecords := [], nextPortId := 0 } []
      = (.error 7,
         { lastCompInstance := some hostW.inst,
           dirRef := [(5, mkRef hostW 5 ⟨105, ⟨true, true, true, true, true, true, true⟩⟩)],
           dirIo := [(5, 0)],
           differRecords := [⟨5, some 50, none⟩, ⟨99, none, none⟩],
           nextPortId := 1 },
         [] ++ (Event.portCreate 0 5 105
                :: Event.portUpdate 0 5 (some 50) none
                :: callInitHooks [] ⟨105, ⟨true, true, true, true, true, true, true⟩⟩)) :=
  ⟨by decide, rfl,
   (c3_construction_failure envW hostW 5 99 ⟨5, some 50, none⟩ ⟨99, none, none⟩
     ⟨105, ⟨true, true, true, true, true, true, true⟩⟩ 7 0 []
     (by decide) rfl rfl rfl rfl).1⟩

/-- C5: on a tick whose host anchor identity differs from the previous
tick's while `[A, B]` are attached, every existing record is destroyed —
port teardown before instance teardown, record by record in store order —
and the differ memo (whatever it held) is reset before any new attachment is
attempted, so the same declared list `[A, B]` is re-created from scratch for
the new host: all teardown events precede all construction events in the
tick's trace, and the stores end up holding two fresh records built from the
new host anchor. -/
theorem c5_host_change_teardown (env : Env) (h1inst : Nat) (h2 : ComponentRef)
    (a b : TypeId) (ra rb : DirectiveRef) (pa pb np : Nat) (tr : List Event)
    (ds0 : List DynamicDirectiveDef) (dA dB : DynamicDirectiveDef)
    (ia2 ib2 : Instance) (hchange : h1inst ≠ h2.inst) (hab : a ≠ b)
    (hdA : dA.type = a) (hdB : dB.type = b) (hra : ra.type = a) (hrb : rb.type = b)
    (hoka : env.injectorGet a (resolveDirParamTypes env a) = .ok ia2)
    (hokb : env.injectorGet b (resolveDirParamTypes env b) = .ok ib2) :
    ngDoCheck env ⟨some [dA, dB], none, some h2⟩
      { lastCompInstance := some h1inst, dirRef := [(a, ra), (b, rb)],
        dirIo := [(a, pa), (b, pb)], differRecords := ds0, nextPortId := np } tr
      = (.ok (),
         { lastCompInstance := some h2.inst,
           dirRef := [(a, mkRef h2 a ia2), (b, mkRef h2 b ib2)],
           dirIo := [(a, np), (b, np + 1)],
           differRecords := [dA, dB], nextPortId := np + 2 },
         tr ++ (destroyDirRef [(a, pa), (b, pb)] [] ra
                ++ destroyDirRef [(a, pa), (b, pb)] [] rb)
            ++ (Event.portCreate np a ia2.id
                :: Event.portUpdate np a dA.inputs dA.outputs
                :: callInitHooks [] ia2)
            ++ (Event.portCreate (np + 1) b ib2.id
                :: Event.portUpdate (np + 1) b dB.inputs dB.outputs
                :: callInitHooks [] ib2)
            ++ [Event.emitCreated [mkRef h2 a ia2, mkRef h2 b ib2]]) := by
  obtain ⟨tA, inA, outA⟩ := dA
  obtain ⟨tB, inB, outB⟩ := dB
  obtain ⟨rai, rat, raj, rahc, rahv, ral, racd, rad⟩ := ra
  obtain ⟨rbi, rbt, rbj, rbhc, rbhv, rbl, rbcd, rbd⟩ := rb
  simp only at hdA hdB hra hrb
  subst hdA; subst hdB; subst hra; subst hrb
  rw [ngDoCheck]
  unfold maybeDestroyDirectives isCompChanged
  cases hfa : rai.hooks.ngOnDestroy <;> cases hfb : rbi.hooks.ngOnDestroy <;>
    simp [compInstance, hchange, destroyAllDirectives_eq, differDiff,
      differAdded, differRemoved, directives, Option.orElse, hab, Ne.symm hab,
      processDirChanges, processAddedItems, destroyDirRef, hfa, hfb,
      initDirective, createDirective, hoka, hokb, initDirIo, mapHas, mkRef,
      callInitHooks_eq]

/-- C5 witness: host anchor 1 replaced by host anchor 2 while `[5, 6]` are
attached and declared again. -/
theorem c5_host_change_teardown_witness :
    (hostW.inst : Nat) ≠ hostW2.inst ∧
    ngDoCheck envW ⟨some [⟨5, some 50, none⟩, ⟨6, some 60, none⟩], none, some hostW2⟩
      { lastCompInstance := some hostW.inst,
        dirRef := [(5, mkRef hostW 5 ⟨105, ⟨true, true, true, true, true, true, true⟩⟩),
                   (6, mkRef hostW 6 ⟨106, ⟨true, true, true, true, true, true, true⟩⟩)],
        dirIo := [(5, 0), (6, 1)],
        differRecords := [⟨5, some 50, none⟩, ⟨6, some 60, none⟩],
        nextPortId := 2 } []
      = (.ok (),
         { lastCompInstance := some hostW2.inst,
           dirRef := [(5, mkRef hostW2 5 ⟨105, ⟨true, true, true, true, true, true, true⟩⟩),
                      (6, mkRef hostW2 6 ⟨106, ⟨true, true, true, true, true, true, true⟩⟩)],
           dirIo := [(5, 2), (6, 3)],
           differRecords := [⟨5, some 50, none⟩, ⟨6, some 60, none⟩],
           nextPortId := 4 },
         [] ++ (destroyDirRef [(5, 0), (6, 1)] []
                  (mkRef hostW 5 ⟨105, ⟨true, true, true, true, true, true, true⟩⟩)
                ++ destroyDirRef [(5, 0), (6, 1)] []
                  (mkRef hostW 6 ⟨106, ⟨true, true, true, true, true, true, true⟩⟩))
            ++ (Event.portCreate 2 5 105
                :: Event.portUpdate 2 5 (some 50) none
                :: callInitHooks [] ⟨105, ⟨true, true, true, true, true, true, true⟩⟩)
            ++ (Event.portCreate 3 6 106
                :: Event.portUpdate 3 6 (some 60) none
                :: callInitHooks [] ⟨106, ⟨true, true, true, true, true, true, true⟩⟩)
            ++ [Event.emitCreated [mkRef hostW2 5 ⟨105, ⟨true, true, true, true, true, true, true⟩⟩,
                                   mkRef hostW2 6 ⟨106, ⟨true, true, true, true, true, true, true⟩⟩]]) :=
  ⟨by decide,
   c5_host_change_teardown envW hostW.inst hostW2 5 6
     (mkRef hostW 5 ⟨105, ⟨true, true, true, true, true, true, true⟩⟩)
     (mkRef hostW 6 ⟨106, ⟨true, true, true, true, true, true, true⟩⟩)
     0 1 2 [] [⟨5, some 50, none⟩, ⟨6, some 60, none⟩]
     ⟨5, some 50, none⟩ ⟨6, some 60, none⟩
     ⟨105, ⟨true, true, true, true, true, true, true⟩⟩
     ⟨106, ⟨true, true, true, true, true, true, true⟩⟩
     (by decide) (by decide) rfl rfl rfl rfl rfl rfl⟩

/-! ### Host-absent ticks -/

theorem ngDoCheck_no_host (env : Env) (t : TickInput) (st : EngineState)
    (tr : List Event) (h0 : t.componentRef = none) :
    ngDoCheck env t st tr
      = (.ok (),
         { lastCompInstance := none, dirRef := [], dirIo := [],
           differRecords := [], nextPortId := st.nextPortId },
         tr ++ concatMap (fun e => destroyDirRef st.dirIo [] e.2) st.dirRef) := by
  obtain ⟨lc, dr, di, drec, npp⟩ := st
  rw [ngDoCheck]
  unfold maybeDestroyDirectives isCompChanged
  by_cases hch : (⟨lc, dr, di, drec, npp⟩ : EngineState).lastCompInstance
      ≠ compInstance t
  · simp [compInstance, h0] at hch
    simp [compInstance, h0, hch, destroyAllDirectives_eq, differDiff]
  · rw [not_ne_iff] at hch
    simp [compInstance, h0] at hch
    simp [compInstance, h0, hch, destroyAllDirectives_eq, differDiff]

theorem ngDoCheck_detached (env : Env) (t : TickInput) (tr : List Event)
    (np : Nat) (h0 : t.componentRef = none) :
    ngDoCheck env t
      { lastCompInstance := none, dirRef := [], dirIo := [],
        differRecords := [], nextPortId := np } tr
      = (.ok (),
         { lastCompInstance := none, dirRef := [], dirIo := [],
           differRecords := [], nextPortId := np }, tr) := by
  rw [ngDoCheck_no_host env t _ tr h0]
  simp

theorem runTicks_detached (env : Env) :
    ∀ (ts : List TickInput) (np : Nat) (tr : List Event),
      (∀ t ∈ ts, t.componentRef = none) →
      runTicks env ts
        { lastCompInstance := none, dirRef := [], dirIo := [],
          differRecords := [], nextPortId := np } tr
        = (.ok (),
           { lastCompInstance := none, dirRef := [], dirIo := [],
             differRecords := [], nextPortId := np }, tr)
  | [], _, _, _ => rfl
  | t :: rest, np, tr, hall => by
    rw [runTicks, ngDoCheck_detached env t tr np (hall t (by simp))]
    exact runTicks_detached env rest np tr (fun t2 ht2 => hall t2 (by simp [ht2]))

/-- C9: once a tick finds no host anchor, the engine tears everything down
and detaches; every further host-less tick — whatever list it declares —
leaves the whole engine state bit-for-bit unchanged (both store mappings
stay empty, the differ memo stays empty) and appends no event at all: no
notification, no port activity, no instance creation.  A run over any
sequence of host-less ticks therefore equals the run over just its first
tick. -/
theorem c9_host_absent_stability (env : Env) (t0 : TickInput)
    (ts : List TickInput) (st : EngineState) (tr : List Event)
    (h0 : t0.componentRef = none) (hts : ∀ t ∈ ts, t.componentRef = none) :
    runTicks env (t0 :: ts) st tr = runTicks env [t0] st tr
    ∧ runTicks env [t0] st tr
        = (.ok (),
           { lastCompInstance := none, dirRef := [], dirIo := [],
             differRecords := [], nextPortId := st.nextPortId },
           tr ++ concatMap (fun e => destroyDirRef st.dirIo [] e.2) st.dirRef) := by
  have h1 : runTicks env [t0] st tr
      = (.ok (),
         { lastCompInstance := none, dirRef := [], dirIo := [],
           differRecords := [], nextPortId := st.nextPortId },
         tr ++ concatMap (fun e => destroyDirRef st.dirIo [] e.2) st.dirRef) := by
    rw [runTicks, ngDoCheck_no_host env t0 st tr h0]
    rfl
  refine ⟨?_, h1⟩
  rw [h1, runTicks, ngDoCheck_no_host env t0 st tr h0]
  simp only
  exact runTicks_detached env ts st.nextPortId _ hts

/-- C9 witness: one attached record, then three host-less ticks still
declaring the list. -/
theorem c9_host_absent_stability_witness :
    ((⟨some [⟨5, some 50, none⟩], none, none⟩ : TickInput).componentRef = none) ∧
    runTicks envW
        [⟨some [⟨5, some 50, none⟩], none, none⟩,
         ⟨some [⟨5, some 50, none⟩], none, none⟩,
         ⟨some [⟨5, some 50, none⟩], none, none⟩]
        { lastCompInstance := some hostW.inst,
          dirRef := [(5, mkRef hostW 5 ⟨105, ⟨true, true, true, true, true, true, true⟩⟩)],
          dirIo := [(5, 0)], differRecords := [⟨5, some 50, none⟩],
          nextPortId := 1 } []
      = runTicks envW [⟨some [⟨5, some 50, none⟩], none, none⟩]
        { lastCompInstance := some hostW.inst,
          dirRef := [(5, mkRef hostW 5 ⟨105, ⟨true, true, true, true, true, true, true⟩⟩)],
          dirIo := [(5, 0)], differRecords := [⟨5, some 50, none⟩],
          nextPortId := 1 } [] :=
  ⟨rfl,
   (c9_host_absent_stability envW ⟨some [⟨5, some 50, none⟩], none, none⟩
     [⟨some [⟨5, some 50, none⟩], none, none⟩,
      ⟨some [⟨5, some 50, none⟩], none, none⟩]
     { lastCompInstance := some hostW.inst,
       dirRef := [(5, mkRef hostW 5 ⟨105, ⟨true, true, true, true, true, true, true⟩⟩)],
       dirIo := [(5, 0)], differRecords := [⟨5, some 50, none⟩],
       nextPortId := 1 } []
     rfl (by intro t2 ht2; fin_cases ht2 <;> rfl)).1⟩

/-! ### Value-refresh helpers -/

theorem updateDirective_set_differ (st : EngineState)
    (x : List DynamicDirectiveDef) (tr : List Event) (d : DynamicDirectiveDef) :
    updateDirective { st with differRecords := x } tr d
      = updateDirective st tr d := rfl

theorem differDiff_snd (prev : List DynamicDirectiveDef)
    (cur : Option (List DynamicDirectiveDef)) :
    (differDiff prev cur).2 = cur.getD [] := rfl

theorem concatMap_updates_not_mem (st : EngineState) :
    ∀ (ds : List DynamicDirectiveDef) (ty : TypeId),
      ty ∉ ds.map (fun d => d.type) →
      (concatMap (fun d2 => updateDirective st [] d2) ds).filter (isUpdateFor ty) = []
  | [], _, _ => rfl
  | d :: rest, ty, h => by
    simp only [List.map_cons, List.mem_cons] at h
    push_neg at h
    rw [concatMap_cons, List.filter_append,
      concatMap_updates_not_mem st rest ty h.2]
    cases hm : mapGet st.dirIo d.type <;>
      simp [updateDirective, hm, isUpdateFor, Ne.symm h.1]

theorem concatMap_updates_filter (st : EngineState) :
    ∀ (ds : List DynamicDirectiveDef) (d : DynamicDirectiveDef) (p : Nat),
      d ∈ ds → (ds.map (fun x => x.type)).Nodup →
      mapGet st.dirIo d.type = some p →
      (concatMap (fun d2 => updateDirective st [] d2) ds).filter (isUpdateFor d.type)
        = [Event.portUpdate p d.type d.inputs d.outputs]
  | [], d, _, hmem, _, _ => absurd hmem (List.not_mem_nil d)
  | d0 :: rest, d, p, hmem, hnodup, hget => by
    rw [concatMap_cons, List.filter_append]
    rcases List.mem_cons.mp hmem with heq | hmemr
    · subst heq
      have hnotin : d.type ∉ rest.map (fun x => x.type) := by
        simpa using (List.nodup_cons.mp hnodup).1
      rw [concatMap_updates_not_mem st rest d.type hnotin]
      simp [updateDirective, hget, isUpdateFor]
    · have h0ne : d.type ≠ d0.type := by
        intro hcontra
        exact (List.nodup_cons.mp hnodup).1
          (by simpa [← hcontra] using List.mem_map_of_mem (fun x => x.type) hmemr)
      rw [concatMap_updates_filter st rest d p hmemr
        (List.nodup_cons.mp hnodup).2 hget]
      cases hm : mapGet st.dirIo d0.type <;>
        simp [updateDirective, hm, isUpdateFor, Ne.symm h0ne]

theorem isPortUpdate_concatMap_updates (st : EngineState) :
    ∀ (ds : List DynamicDirectiveDef) (e : Event),
      e ∈ concatMap (fun d => updateDirective st [] d) ds → isPortUpdate e = true
  | d :: rest, e, hmem => by
    rw [concatMap_cons] at hmem
    rcases List.mem_append.mp hmem with h1 | h2
    · simp only [updateDirective] at h1
      cases hm : mapGet st.dirIo d.type with
      | none => rw [hm] at h1; simp at h1
      | some p =>
        rw [hm] at h1
        simp only [List.nil_append, List.mem_singleton] at h1
        rw [h1]
        rfl
    · exact isPortUpdate_concatMap_updates st rest e h2

/-- C6 (amended): on a stable-host tick where the differ reports no
structural change, no instance is created or destroyed and the engine state
is unchanged except for the differ memo; the tick only forwards declared
`inputs`/`outputs` to Binding Ports — and, provided the declared list names
each type at most once, the port of every currently attached declared type
receives exactly one `update` call, carrying that declaration's current
payloads.  (Without the no-duplicate proviso the port receives one call per
declared occurrence; see the counterexample.) -/
theorem c6_value_refresh (env : Env) (host : ComponentRef) (st : EngineState)
    (tr : List Event) (ds : List DynamicDirectiveDef)
    (hstable : st.lastCompInstance = some host.inst)
    (hno : (differDiff st.differRecords (some ds)).1 = none)
    (hnodup : (ds.map (fun d => d.type)).Nodup) :
    ngDoCheck env ⟨some ds, none, some host⟩ st tr
      = (.ok (), { st with differRecords := ds },
         tr ++ concatMap (fun d => updateDirective st [] d) ds)
    ∧ (∀ e ∈ concatMap (fun d => updateDirective st [] d) ds,
        isPortUpdate e = true)
    ∧ ∀ d ∈ ds, ∀ p : Nat, mapGet st.dirIo d.type = some p →
        (concatMap (fun d2 => updateDirective st [] d2) ds).filter
            (isUpdateFor d.type)
          = [Event.portUpdate p d.type d.inputs d.outputs] := by
  refine ⟨?_, fun e he => isPortUpdate_concatMap_updates st ds e he,
    fun d hd p hp => concatMap_updates_filter st ds d p hd hnodup hp⟩
  rw [ngDoCheck, maybeDestroyDirectives_stable _ _ _ host rfl hstable]
  have hdir : directives ⟨some ds, none, some host⟩ = some ds := rfl
  simp only [Bool.false_eq_true, if_false, hdir, hno, differDiff_snd,
    Option.getD_some, updateDirectives_eq, updateDirective_set_differ]

/-- C6 witness: one attached behavior of type 5, same singleton list with
changed inputs. -/
theorem c6_value_refresh_witness :
    (differDiff [defDup] (some [⟨5, some 99, some 3⟩])).1 = none ∧
    ngDoCheck envW ⟨some [⟨5, some 99, some 3⟩], none, some hostW⟩
      { lastCompInstance := some hostW.inst,
        dirRef := [(5, mkRef hostW 5 ⟨105, ⟨true, true, true, true, true, true, true⟩⟩)],
        dirIo := [(5, 0)], differRecords := [defDup], nextPortId := 1 } []
      = (.ok (),
         { lastCompInstance := some hostW.inst,
           dirRef := [(5, mkRef hostW 5 ⟨105, ⟨true, true, true, true, true, true, true⟩⟩)],
           dirIo := [(5, 0)], differRecords := [⟨5, some 99, some 3⟩],
           nextPortId := 1 },
         [] ++ concatMap
            (fun d => updateDirective
              { lastCompInstance := some hostW.inst,
                dirRef := [(5, mkRef hostW 5 ⟨105, ⟨true, true, true, true, true, true, true⟩⟩)],
                dirIo := [(5, 0)], differRecords := [defDup], nextPortId := 1 }
              [] d)
            [⟨5, some 99, some 3⟩]) :=
  ⟨rfl,
   (c6_value_refresh envW hostW
     { lastCompInstance := some hostW.inst,
       dirRef := [(5, mkRef hostW 5 ⟨105, ⟨true, true, true, true, true, true, true⟩⟩)],
       dirIo := [(5, 0)], differRecords := [defDup], nextPortId := 1 }
     [] [⟨5, some 99, some 3⟩] rfl rfl (by decide)).1⟩

/-- C6 counterexample: the state `stDup` is reached from the initial state
by one tick declaring type 5 twice; on the next tick, with a stable host and
the differ reporting no structural change while type 5 is attached, its
Binding Port receives two `update` calls, not exactly one. -/
theorem c6_value_refresh_counterexample :
    (runTicks envW [⟨some [defDup, defDup], none, some hostW⟩]
        initialState []).2.1 = stDup
    ∧ stDup.lastCompInstance = some hostW.inst
    ∧ (differDiff stDup.differRecords (some [defDup, defDup])).1 = none
    ∧ mapGet stDup.dirRef 5 ≠ none
    ∧ ((ngDoCheck envW ⟨some [defDup, defDup], none, some hostW⟩ stDup []).2.2.filter
        (isUpdateFor 5)).length = 2 :=
  ⟨rfl, rfl, rfl, by decide, rfl⟩

end DynDir
